import Mathlib

/-
Shallow embedding of `crates/resvg/src/path.rs` (the path draw-op builder
`convert` / `convert_fill_path` / `convert_stroke_path` and the draw-op
executors `render_fill_path` / `render_stroke_path`).

External collaborators (the `usvg` and `tiny_skia` crates, the paint
resolver `paint_server::convert`, the pattern-tile renderer
`paint_server::prepare_pattern_pixmap` and the rasterizer primitives
`PixmapMut::fill_path` / `PixmapMut::stroke_path`) are not part of this
repository's source; they are modelled at their interface boundary:
geometric types concretely over the rationals, opaque payloads as records
with an identifier, and the external functions as explicit parameters
(`PaintResolver`, `RenderEnv`).  The mutable `children: &mut Vec<Node>`
and `pixmap: &mut PixmapMut` arguments are modelled by explicit state
passing: the functions take the current value and return the new one.
-/

set_option autoImplicit false

namespace Resvg

/-- Axis-aligned rectangle (`tiny_skia::Rect`), coordinates modelled as
rationals. -/
structure Rect where
  left : ℚ
  top : ℚ
  right : ℚ
  bottom : ℚ
deriving DecidableEq, Repr

def Rect.width (r : Rect) : ℚ := r.right - r.left

def Rect.height (r : Rect) : ℚ := r.bottom - r.top

/-- Rectangle with positive width and height (`tiny_skia::NonZeroRect`).
The positivity invariant is enforced at construction
(`Rect.to_non_zero_rect`); it is not carried as a proof field. -/
structure NonZeroRect where
  rect : Rect
deriving DecidableEq, Repr

def NonZeroRect.to_rect (r : NonZeroRect) : Rect := r.rect

/-- Modelled from the spec: `tiny_skia::Rect::to_non_zero_rect` succeeds
exactly when the rectangle has positive width and height. -/
def Rect.to_non_zero_rect (r : Rect) : Option NonZeroRect :=
  if 0 < r.width ∧ 0 < r.height then some ⟨r⟩ else none

/-- Bounding-box accumulator (`usvg::BBox`). -/
structure BBox where
  left : ℚ
  top : ℚ
  right : ℚ
  bottom : ℚ
deriving DecidableEq, Repr

/-- Modelled from the spec: `usvg::BBox::from(Rect)`. -/
def BBox.ofRect (r : Rect) : BBox :=
  ⟨r.left, r.top, r.right, r.bottom⟩

/-- Modelled from the spec: `usvg::BBox::expand`, the min/max union of the
accumulator with another rectangle. -/
def BBox.expand (b : BBox) (r : NonZeroRect) : BBox :=
  ⟨min b.left r.rect.left, min b.top r.rect.top,
   max b.right r.rect.right, max b.bottom r.rect.bottom⟩

/-- Immutable path geometry (`Rc<tiny_skia::Path>`): an opaque segment
sequence identifier together with its precomputed bounds
(`tiny_skia::Path::bounds`). -/
structure TsPath where
  id : ℕ
  bounds : Rect
deriving DecidableEq, Repr

/-- `usvg::ShapeRendering`. -/
inductive ShapeRendering where
  | optimizeSpeed
  | crispEdges
  | geometricPrecision
deriving DecidableEq, Repr

/-- Modelled from the spec: `usvg::ShapeRendering::use_shape_antialiasing`
is true except in the speed/crisp modes. -/
def ShapeRendering.use_shape_antialiasing : ShapeRendering → Bool
  | .optimizeSpeed => false
  | .crispEdges => false
  | .geometricPrecision => true

/-- `usvg::Visibility`. -/
inductive Visibility where
  | visible
  | hidden
  | collapse
deriving DecidableEq, Repr

/-- `usvg::PaintOrder`. -/
inductive PaintOrder where
  | fillAndStroke
  | strokeAndFill
deriving DecidableEq, Repr

/-- `usvg::FillRule`. -/
inductive UFillRule where
  | nonZero
  | evenOdd
deriving DecidableEq, Repr

/-- `tiny_skia::FillRule`. -/
inductive TsFillRule where
  | winding
  | evenOdd
deriving DecidableEq, Repr

/-- Abstract paint description (`usvg::Paint`): opaque, consumed only by
the external paint resolver. -/
structure UPaintDesc where
  id : ℕ
deriving DecidableEq, Repr

/-- Ready-to-use shading function (`tiny_skia::Shader`): opaque. -/
structure Shader where
  id : ℕ
deriving DecidableEq, Repr

/-- Pattern paint (`crate::paint_server::Pattern`): opaque tile content
plus the opacity read by the executor (`pattern.opacity.get()`). -/
structure Pattern where
  id : ℕ
  opacity : ℚ
deriving DecidableEq, Repr

/-- Resolved paint (`crate::paint_server::Paint`), a tagged union. -/
inductive Paint where
  | shader (s : Shader)
  | pattern (p : Pattern)
deriving DecidableEq, Repr

/-- `usvg::Fill`. -/
structure UFill where
  paint : UPaintDesc
  opacity : ℚ
  rule : UFillRule
deriving DecidableEq, Repr

/-- Converted stroke style (`tiny_skia::Stroke`): opaque. -/
structure TsStroke where
  id : ℕ
deriving DecidableEq, Repr

/-- `usvg::Stroke`: paint description, opacity, and the stroke style
carried for conversion. -/
structure UStroke where
  paint : UPaintDesc
  opacity : ℚ
  skia : TsStroke
deriving DecidableEq, Repr

/-- Modelled from the spec: `usvg::Stroke::to_tiny_skia` converts the
stroke style parameters; the converted value is carried opaquely. -/
def UStroke.to_tiny_skia (s : UStroke) : TsStroke := s.skia

/-- `usvg::Path`: the path node consumed by `convert`. -/
structure UPath where
  data : TsPath
  fill : Option UFill
  stroke : Option UStroke
  rendering_mode : ShapeRendering
  visibility : Visibility
  paint_order : PaintOrder
  bounding_box : Option Rect
  stroke_bounding_box : Option NonZeroRect
deriving DecidableEq, Repr

/-- `resvg::path::FillPath`. -/
structure FillPath where
  paint : Paint
  rule : TsFillRule
  anti_alias : Bool
  path : TsPath
deriving DecidableEq, Repr

/-- `resvg::path::StrokePath`. -/
structure StrokePath where
  paint : Paint
  stroke : TsStroke
  anti_alias : Bool
  path : TsPath
deriving DecidableEq, Repr

/-- The draw-op variants of `crate::tree::Node` produced here. -/
inductive Node where
  | fillPath (f : FillPath)
  | strokePath (s : StrokePath)
deriving DecidableEq, Repr

/-- The external paint resolver `crate::paint_server::convert`:
paint description, opacity, object bounding box. -/
def PaintResolver : Type :=
  UPaintDesc → ℚ → Option NonZeroRect → Option Paint

/-- `convert_fill_path` from `path.rs`. -/
def convert_fill_path (resolve : PaintResolver) (ufill : UFill)
    (path : TsPath) (object_bbox : Rect) (anti_alias : Bool) :
    Option FillPath :=
  -- Horizontal and vertical lines cannot be filled. Skip.
  if path.bounds.width = 0 ∨ path.bounds.height = 0 then
    none
  else
    let rule := match ufill.rule with
      | UFillRule.nonZero => TsFillRule.winding
      | UFillRule.evenOdd => TsFillRule.evenOdd
    match resolve ufill.paint ufill.opacity object_bbox.to_non_zero_rect with
    | none => none
    | some paint =>
      some { paint := paint, rule := rule, anti_alias := anti_alias, path := path }

/-- `convert_stroke_path` from `path.rs`.  A zero-sized stroke path is not
an error (line caps can still produce a shape), so there is no degenerate
geometry check here. -/
def convert_stroke_path (resolve : PaintResolver) (ustroke : UStroke)
    (path : TsPath) (object_bbox : Rect) (anti_alias : Bool) :
    Option StrokePath :=
  match resolve ustroke.paint ustroke.opacity object_bbox.to_non_zero_rect with
  | none => none
  | some paint =>
    some { paint := paint, stroke := ustroke.to_tiny_skia,
           anti_alias := anti_alias, path := path }

/-- `convert` from `path.rs`.  The `children: &mut Vec<Node>` out
parameter is the second component of the result; the `Option<usvg::BBox>`
return value is the first. -/
def convert (resolve : PaintResolver) (upath : UPath)
    (text_bbox : Option NonZeroRect) (children : List Node) :
    Option BBox × List Node :=
  let anti_alias := upath.rendering_mode.use_shape_antialiasing
  match upath.bounding_box with
  | none => (none, children)   -- missing precomputed bbox: warn and bail out
  | some bb =>
    let bounding_box : Rect :=
      match text_bbox with
      | some t => t.to_rect
      | none => bb
    let fill_path := upath.fill.bind fun ufill =>
      convert_fill_path resolve ufill upath.data bounding_box anti_alias
    let stroke_path := upath.stroke.bind fun ustroke =>
      convert_stroke_path resolve ustroke upath.data bounding_box anti_alias
    if fill_path.isNone && stroke_path.isNone then
      (none, children)
    else
      let layer_bbox := BBox.ofRect bounding_box
      let layer_bbox :=
        if stroke_path.isSome then
          match upath.stroke_bounding_box with
          | some stroke_bbox => layer_bbox.expand stroke_bbox
          | none => layer_bbox
        else layer_bbox
      -- Do not add hidden paths, but preserve the bbox.
      if upath.visibility ≠ Visibility.visible then
        (some layer_bbox, children)
      else
        let pushed :=
          if upath.paint_order = PaintOrder.fillAndStroke then
            let c := match fill_path with
              | some p => children ++ [Node.fillPath p]
              | none => children
            match stroke_path with
            | some p => c ++ [Node.strokePath p]
            | none => c
          else
            let c := match stroke_path with
              | some p => children ++ [Node.strokePath p]
              | none => children
            match fill_path with
            | some p => c ++ [Node.fillPath p]
            | none => c
        (some layer_bbox, pushed)

/-- Target pixel buffer (`tiny_skia::PixmapMut`): opaque state. -/
structure Pixmap where
  id : ℕ
deriving DecidableEq, Repr

/-- `tiny_skia::Transform`: opaque. -/
structure Transform where
  id : ℕ
deriving DecidableEq, Repr

/-- Render context (`crate::render::Context`): opaque, only threaded
through to pattern preparation. -/
structure Context where
  id : ℕ
deriving DecidableEq, Repr

/-- `tiny_skia::BlendMode`: opaque. -/
structure BlendMode where
  id : ℕ
deriving DecidableEq, Repr

/-- Clip mask argument of the rasterizer primitives: opaque; this core
always passes `none`. -/
structure Mask where
  id : ℕ
deriving DecidableEq, Repr

/-- `tiny_skia::SpreadMode`. -/
inductive SpreadMode where
  | pad
  | reflect
  | repeatSpread
deriving DecidableEq, Repr

/-- `tiny_skia::FilterQuality`. -/
inductive FilterQuality where
  | nearest
  | bilinear
  | bicubic
deriving DecidableEq, Repr

/-- The shader stored in `tiny_skia::Paint` by the executors: either the
precomputed shading function reused as-is, or `tiny_skia::Pattern::new`
over a freshly prepared tile pixmap. -/
inductive TsShader where
  | fromShader (s : Shader)
  | patternShader (pix : Pixmap) (spread : SpreadMode) (quality : FilterQuality)
      (opacity : ℚ) (ts : Transform)
deriving DecidableEq, Repr

/-- The fields of `tiny_skia::Paint` set by the executors. -/
structure TsPaint where
  shader : TsShader
  anti_alias : Bool
  blend_mode : BlendMode
deriving DecidableEq, Repr

/-- External capabilities used by the executors, at their interface
boundary: the pattern-tile renderer
(`paint_server::prepare_pattern_pixmap`, which may fail) and the
rasterizer primitives (`PixmapMut::fill_path` / `stroke_path`), modelled
as pure transformers of the pixel buffer. -/
structure RenderEnv where
  prepare_pattern_pixmap : Pattern → Context → Transform → Option (Pixmap × Transform)
  fill_path_prim : Pixmap → TsPath → TsPaint → TsFillRule → Transform → Option Mask → Pixmap
  stroke_path_prim : Pixmap → TsPath → TsPaint → TsStroke → Transform → Option Mask → Pixmap

/-- `render_fill_path` from `path.rs`.  The mutable pixmap is passed in
and the (possibly updated) pixmap is returned next to the `Option<()>`
result. -/
def render_fill_path (env : RenderEnv) (path : FillPath)
    (blend_mode : BlendMode) (ctx : Context) (transform : Transform)
    (pixmap : Pixmap) : Option Unit × Pixmap :=
  let shaderOpt : Option TsShader :=
    match path.paint with
    | Paint.shader s => some (TsShader.fromShader s)
    | Paint.pattern p =>
      match env.prepare_pattern_pixmap p ctx transform with
      | none => none
      | some (patt_pix, patt_ts) =>
        some (TsShader.patternShader patt_pix SpreadMode.repeatSpread
          FilterQuality.bicubic p.opacity patt_ts)
  match shaderOpt with
  | none => (none, pixmap)
  | some sh =>
    let paint : TsPaint :=
      { shader := sh, anti_alias := path.anti_alias, blend_mode := blend_mode }
    (some (), env.fill_path_prim pixmap path.path paint path.rule transform none)

/-- `render_stroke_path` from `path.rs`. -/
def render_stroke_path (env : RenderEnv) (path : StrokePath)
    (blend_mode : BlendMode) (ctx : Context) (transform : Transform)
    (pixmap : Pixmap) : Option Unit × Pixmap :=
  let shaderOpt : Option TsShader :=
    match path.paint with
    | Paint.shader s => some (TsShader.fromShader s)
    | Paint.pattern p =>
      match env.prepare_pattern_pixmap p ctx transform with
      | none => none
      | some (patt_pix, patt_ts) =>
        some (TsShader.patternShader patt_pix SpreadMode.repeatSpread
          FilterQuality.bicubic p.opacity patt_ts)
  match shaderOpt with
  | none => (none, pixmap)
  | some sh =>
    let paint : TsPaint :=
      { shader := sh, anti_alias := path.anti_alias, blend_mode := blend_mode }
    (some (), env.stroke_path_prim pixmap path.path paint path.stroke transform none)

/-
Derived forms used by the theorems below: the effective bounding box seen
by paint resolution, the fill/stroke draw ops a node builds, the layer
bounding box, and the emitted draw-op sequence.  These restate the data
flow of `convert` in applicative form; `convert_eq` proves the two agree.
-/

/-- The bounding box `convert` works with after the optional text-bbox
override: the override's rect when supplied, the node's own otherwise. -/
def effectiveRect (text_bbox : Option NonZeroRect) (bb : Rect) : Rect :=
  match text_bbox with
  | some t => t.to_rect
  | none => bb

/-- The fill draw op a node builds over a given effective bounding box. -/
def builtFill (resolve : PaintResolver) (upath : UPath) (ebb : Rect) :
    Option FillPath :=
  upath.fill.bind fun ufill =>
    convert_fill_path resolve ufill upath.data ebb
      upath.rendering_mode.use_shape_antialiasing

/-- The stroke draw op a node builds over a given effective bounding box. -/
def builtStroke (resolve : PaintResolver) (upath : UPath) (ebb : Rect) :
    Option StrokePath :=
  upath.stroke.bind fun ustroke =>
    convert_stroke_path resolve ustroke upath.data ebb
      upath.rendering_mode.use_shape_antialiasing

/-- The layer bounding box `convert` returns: the effective bounding box,
expanded by the node's stroke bounding box when a stroke op was built and
the node carries one. -/
def layerBBox (upath : UPath) (ebb : Rect) (strokeBuilt : Bool) : BBox :=
  if strokeBuilt then
    match upath.stroke_bounding_box with
    | some stroke_bbox => (BBox.ofRect ebb).expand stroke_bbox
    | none => BBox.ofRect ebb
  else BBox.ofRect ebb

/-- The draw-op sequence emitted for a visible node, ordered by
paint-order, omitting whichever op was not built. -/
def emitted (po : PaintOrder) (f : Option FillPath) (s : Option StrokePath) :
    List Node :=
  if po = PaintOrder.fillAndStroke then
    (match f with | some p => [Node.fillPath p] | none => []) ++
    (match s with | some p => [Node.strokePath p] | none => [])
  else
    (match s with | some p => [Node.strokePath p] | none => []) ++
    (match f with | some p => [Node.fillPath p] | none => [])

/-- Applicative restatement of the body of `convert` once the node's
bounding box is known to be present. -/
def builtResult (resolve : PaintResolver) (upath : UPath) (ebb : Rect)
    (children : List Node) : Option BBox × List Node :=
  let f := builtFill resolve upath ebb
  let s := builtStroke resolve upath ebb
  if f.isNone && s.isNone then
    (none, children)
  else if upath.visibility ≠ Visibility.visible then
    (some (layerBBox upath ebb s.isSome), children)
  else
    (some (layerBBox upath ebb s.isSome),
     children ++ emitted upath.paint_order f s)

theorem convert_none_of_no_bbox (resolve : PaintResolver) (upath : UPath)
    (tb : Option NonZeroRect) (children : List Node)
    (hbb : upath.bounding_box = none) :
    convert resolve upath tb children = (none, children) := by
  simp [convert, hbb]

theorem convert_eq (resolve : PaintResolver) (upath : UPath)
    (tb : Option NonZeroRect) (children : List Node) (bb : Rect)
    (hbb : upath.bounding_box = some bb) :
    convert resolve upath tb children
      = builtResult resolve upath (effectiveRect tb bb) children := by
  simp only [convert, hbb, builtResult, builtFill, builtStroke, layerBBox,
    emitted, effectiveRect]
  cases tb <;>
    simp only [] <;>
    cases hf : upath.fill.bind fun ufill =>
        convert_fill_path resolve ufill upath.data _
          upath.rendering_mode.use_shape_antialiasing <;>
    cases hs : upath.stroke.bind fun ustroke =>
        convert_stroke_path resolve ustroke upath.data _
          upath.rendering_mode.use_shape_antialiasing <;>
    cases hv : upath.visibility <;>
    cases hpo : upath.paint_order <;>
    simp_all

/-- A draw-op node is a fill op. -/
def Node.isFill : Node → Bool
  | Node.fillPath _ => true
  | Node.strokePath _ => false

/-
Concrete fixtures used by counterexamples and witnesses.
-/

/-- A paint resolver that always succeeds with a fixed shader paint. -/
def resolveAlways : PaintResolver := fun _ _ _ => some (Paint.shader ⟨7⟩)

def rectUnit : Rect := ⟨0, 0, 1, 1⟩

def rectObj : Rect := ⟨0, 0, 4, 3⟩

def rectText : Rect := ⟨10, 10, 12, 13⟩

/-- A degenerate rectangle: positive width, zero height. -/
def rectFlat : Rect := ⟨0, 0, 5, 0⟩

def pathSquare : TsPath := ⟨1, rectUnit⟩

/-- A horizontal-line path: its bounds have zero height. -/
def pathFlat : TsPath := ⟨2, rectFlat⟩

def ufill0 : UFill := ⟨⟨0⟩, 1, UFillRule.nonZero⟩

def ustroke0 : UStroke := ⟨⟨1⟩, 1, ⟨3⟩⟩

def nzrText : NonZeroRect := ⟨rectText⟩

/-- A node with a bounding box but neither fill nor stroke. -/
def upathBare : UPath :=
  { data := pathSquare, fill := none, stroke := none,
    rendering_mode := ShapeRendering.geometricPrecision,
    visibility := Visibility.visible,
    paint_order := PaintOrder.fillAndStroke,
    bounding_box := some rectObj, stroke_bounding_box := none }

/-- A visible fill-only node over non-degenerate geometry. -/
def upathFill : UPath :=
  { upathBare with fill := some ufill0 }

/-- The hidden variant of `upathFill`. -/
def upathFillHidden : UPath :=
  { upathFill with visibility := Visibility.hidden }

/-- A visible node carrying both a fill and a stroke spec. -/
def upathBoth : UPath :=
  { upathFill with
    stroke := some ustroke0
    stroke_bounding_box := some nzrText }

/-- The fill-carrying node over the degenerate (zero-height) path. -/
def upathFlatFill : UPath :=
  { upathFill with data := pathFlat }

/-- A stroke-only node with no precomputed stroke bounding box. -/
def upathStroke : UPath :=
  { upathBare with stroke := some ustroke0 }

/-- The fill op `resolveAlways` builds over `pathSquare`. -/
def f0 : FillPath :=
  { paint := Paint.shader ⟨7⟩, rule := TsFillRule.winding,
    anti_alias := true, path := pathSquare }

/-- The stroke op `resolveAlways` builds over `pathSquare`. -/
def s0 : StrokePath :=
  { paint := Paint.shader ⟨7⟩, stroke := ⟨3⟩,
    anti_alias := true, path := pathSquare }

/-
Claim C1.
-/

/-- C1 counterexample: a node that carries a precomputed object bounding
box but builds neither draw op (no fill, no stroke) gets no layer
bounding box back from `convert`, refuting "the returned bounding box is
produced regardless of whether any FillDrawOp or StrokeDrawOp was
built". -/
theorem c1_counterexample :
    upathBare.bounding_box.isSome = true ∧
    (convert resolveAlways upathBare none []).1 = none := by
  exact ⟨rfl, rfl⟩

/-- C1 (amended): for a node carrying a precomputed object bounding box,
`convert` returns a layer bounding box exactly when at least one of the
two draw ops was built; in particular the box is still returned when zero
ops are emitted because the node is hidden, but a node that builds
neither op returns nothing. -/
theorem c1_layer_bbox_iff_op_built (resolve : PaintResolver) (upath : UPath)
    (tb : Option NonZeroRect) (children : List Node) (bb : Rect)
    (hbb : upath.bounding_box = some bb) :
    ((convert resolve upath tb children).1).isSome = true
      ↔ ((builtFill resolve upath (effectiveRect tb bb)).isSome = true
          ∨ (builtStroke resolve upath (effectiveRect tb bb)).isSome = true) := by
  rw [convert_eq resolve upath tb children bb hbb]
  cases hf : builtFill resolve upath (effectiveRect tb bb) <;>
    cases hs : builtStroke resolve upath (effectiveRect tb bb) <;>
    by_cases hv : upath.visibility = Visibility.visible <;>
    simp_all [builtResult]

/-- Closed instantiation of `c1_layer_bbox_iff_op_built` at `upathFill`. -/
theorem c1_witness :
    upathFill.bounding_box = some rectObj ∧
    (((convert resolveAlways upathFill none []).1).isSome = true
      ↔ ((builtFill resolveAlways upathFill (effectiveRect none rectObj)).isSome = true
          ∨ (builtStroke resolveAlways upathFill (effectiveRect none rectObj)).isSome = true)) :=
  ⟨rfl, c1_layer_bbox_iff_op_built resolveAlways upathFill none [] rectObj rfl⟩

/-
Claim C2.
-/

/-- C2 counterexample: with an effective bounding box of positive width
and height and a paint that resolves, the fill op is still rejected,
because the rejection tests the path geometry's own bounds (here a
zero-height line), not the effective bounding box.  This refutes
"rejects exactly when the effective bounding box has zero width or zero
height". -/
theorem c2_counterexample :
    (0 < rectUnit.width ∧ 0 < rectUnit.height) ∧
    (resolveAlways ufill0.paint ufill0.opacity rectUnit.to_non_zero_rect).isSome = true ∧
    convert_fill_path resolveAlways ufill0 pathFlat rectUnit true = none := by
  refine ⟨⟨?_, ?_⟩, rfl, ?_⟩
  · norm_num [rectUnit, Rect.width]
  · norm_num [rectUnit, Rect.height]
  · simp [convert_fill_path, pathFlat, rectFlat, Rect.height]

/-- C2 (amended): `convert_fill_path` rejects exactly when the path
geometry's own precomputed bounds have zero width or zero height, or the
paint fails to resolve; the paint is resolved against the effective
bounding box (converted to a non-zero rect) and the fill opacity. -/
theorem c2_fill_rejects_on_path_bounds (resolve : PaintResolver)
    (ufill : UFill) (path : TsPath) (ebb : Rect) (anti_alias : Bool) :
    convert_fill_path resolve ufill path ebb anti_alias = none
      ↔ (path.bounds.width = 0 ∨ path.bounds.height = 0
          ∨ resolve ufill.paint ufill.opacity ebb.to_non_zero_rect = none) := by
  unfold convert_fill_path
  by_cases h : path.bounds.width = 0 ∨ path.bounds.height = 0
  · rcases h with h | h <;> simp [h]
  · cases hr : resolve ufill.paint ufill.opacity ebb.to_non_zero_rect <;>
      simp_all

/-
Claim C3.
-/

/-- C3 counterexample: a text-bbox override changes the returned layer
bounding box, refuting "the returned layerBBox is still computed from the
node's object bounding box, not from the override": for `upathFill`
(object bbox `rectObj`) with override `nzrText`, the layer bbox is built
from `rectText`, which differs from the one built from `rectObj`. -/
theorem c3_counterexample :
    (convert resolveAlways upathFill (some nzrText) []).1
        = some (BBox.ofRect rectText) ∧
    BBox.ofRect rectText ≠ BBox.ofRect rectObj := by
  constructor
  · simp [convert, upathFill, upathBare, resolveAlways, convert_fill_path,
      nzrText, NonZeroRect.to_rect, pathSquare, rectUnit, Rect.width, Rect.height]
  · simp [BBox.ofRect, rectText, rectObj]

/-- C3 (amended): the external text bounding box overrides the node's own
bounding box wholesale: both paint-coordinate resolution and the returned
layer bounding box use it; `convert` with an override behaves exactly as
on the node whose object bounding box is the override's rect. -/
theorem c3_override_replaces_bbox (resolve : PaintResolver) (upath : UPath)
    (t : NonZeroRect) (children : List Node)
    (h : upath.bounding_box.isSome = true) :
    convert resolve upath (some t) children
      = convert resolve { upath with bounding_box := some t.to_rect } none children := by
  obtain ⟨bb, hbb⟩ := Option.isSome_iff_exists.mp h
  rw [convert_eq resolve upath (some t) children bb hbb,
    convert_eq resolve { upath with bounding_box := some t.to_rect } none children
      t.to_rect rfl]
  rfl

/-- Closed instantiation of `c3_override_replaces_bbox` at `upathFill`. -/
theorem c3_witness :
    convert resolveAlways upathFill (some nzrText) []
      = convert resolveAlways { upathFill with bounding_box := some nzrText.to_rect } none [] :=
  c3_override_replaces_bbox resolveAlways upathFill nzrText [] rfl

/-
Claim C4.
-/

/-- C4: for geometry whose own bounds have zero width or zero height, no
fill op is ever built — `convert_fill_path` returns `none` for every
paint resolver (rejection precedes paint resolution), and `convert`
appends no fill node to the children. -/
theorem c4_degenerate_geometry_no_fill (resolve : PaintResolver)
    (upath : UPath) (tb : Option NonZeroRect) (children : List Node)
    (hdeg : upath.data.bounds.width = 0 ∨ upath.data.bounds.height = 0) :
    (∀ ufill ebb anti_alias,
        convert_fill_path resolve ufill upath.data ebb anti_alias = none) ∧
    ((convert resolve upath tb children).2).filter Node.isFill
      = children.filter Node.isFill := by
  have hnone : ∀ ufill ebb anti_alias,
      convert_fill_path resolve ufill upath.data ebb anti_alias = none := by
    intro ufill ebb anti_alias
    unfold convert_fill_path
    simp [hdeg]
  refine ⟨hnone, ?_⟩
  cases hbb : upath.bounding_box with
  | none => rw [convert_none_of_no_bbox resolve upath tb children hbb]
  | some bb =>
    rw [convert_eq resolve upath tb children bb hbb]
    have hf : builtFill resolve upath (effectiveRect tb bb) = none := by
      unfold builtFill
      cases upath.fill with
      | none => rfl
      | some ufill => simp [hnone]
    cases hs : builtStroke resolve upath (effectiveRect tb bb) <;>
      by_cases hv : upath.visibility = Visibility.visible <;>
      by_cases hpo : upath.paint_order = PaintOrder.fillAndStroke <;>
      simp_all [builtResult, emitted, Node.isFill, List.filter_append]

/-- Closed instantiation of `c4_degenerate_geometry_no_fill` on a node
over the zero-height path with a fill spec and an always-succeeding
resolver. -/
theorem c4_witness :
    (upathFlatFill.data.bounds.width = 0 ∨ upathFlatFill.data.bounds.height = 0) ∧
    ((∀ ufill ebb anti_alias,
        convert_fill_path resolveAlways ufill upathFlatFill.data ebb anti_alias = none) ∧
     ((convert resolveAlways upathFlatFill none []).2).filter Node.isFill
        = ([] : List Node).filter Node.isFill) :=
  ⟨Or.inr (by simp [upathFlatFill, upathFill, upathBare, pathFlat, rectFlat, Rect.height]),
   c4_degenerate_geometry_no_fill resolveAlways upathFlatFill none []
     (Or.inr (by simp [upathFlatFill, upathFill, upathBare, pathFlat, rectFlat, Rect.height]))⟩

/-
Claim C5.
-/

/-- C5: stroke construction performs no degenerate-geometry rejection:
even when the path's own bounds have zero width or zero height, a stroke
op is produced as soon as the stroke paint resolves. -/
theorem c5_stroke_built_despite_degenerate (resolve : PaintResolver)
    (ustroke : UStroke) (path : TsPath) (ebb : Rect) (anti_alias : Bool)
    (p : Paint)
    (_hdeg : path.bounds.width = 0 ∨ path.bounds.height = 0)
    (hres : resolve ustroke.paint ustroke.opacity ebb.to_non_zero_rect = some p) :
    convert_stroke_path resolve ustroke path ebb anti_alias
      = some { paint := p, stroke := ustroke.to_tiny_skia,
               anti_alias := anti_alias, path := path } := by
  unfold convert_stroke_path
  rw [hres]

/-- Closed instantiation of `c5_stroke_built_despite_degenerate` on the
zero-height path with an always-succeeding resolver. -/
theorem c5_witness :
    (pathFlat.bounds.width = 0 ∨ pathFlat.bounds.height = 0) ∧
    convert_stroke_path resolveAlways ustroke0 pathFlat rectObj true
      = some { paint := Paint.shader ⟨7⟩, stroke := ustroke0.to_tiny_skia,
               anti_alias := true, path := pathFlat } :=
  ⟨Or.inr (by simp [pathFlat, rectFlat, Rect.height]),
   c5_stroke_built_despite_degenerate resolveAlways ustroke0 pathFlat rectObj true
     (Paint.shader ⟨7⟩) (Or.inr (by simp [pathFlat, rectFlat, Rect.height])) rfl⟩

/-
Claim C6.
-/

/-- C6: a node whose visibility is not visible appends nothing to the
children, and the bounding box `convert` returns is the one the same node
would return with visibility set to visible (stroke expansion included,
since fill/stroke building and the layer bbox do not read visibility). -/
theorem c6_hidden_same_bbox_no_output (resolve : PaintResolver)
    (upath : UPath) (tb : Option NonZeroRect) (children : List Node)
    (hv : upath.visibility ≠ Visibility.visible) :
    (convert resolve upath tb children).2 = children ∧
    (convert resolve upath tb children).1
      = (convert resolve { upath with visibility := Visibility.visible } tb children).1 := by
  obtain ⟨data, fill, stroke, rm, vis, po, bbox, sbbox⟩ := upath
  cases bbox with
  | none =>
    rw [convert_none_of_no_bbox resolve _ tb children rfl,
      convert_none_of_no_bbox resolve _ tb children rfl]
    exact ⟨rfl, rfl⟩
  | some bb =>
    rw [convert_eq resolve _ tb children bb rfl, convert_eq resolve _ tb children bb rfl]
    simp only [builtResult, builtFill, builtStroke]
    cases hf : fill.bind fun ufill =>
        convert_fill_path resolve ufill data
          (effectiveRect tb bb) rm.use_shape_antialiasing <;>
      cases hs : stroke.bind fun ustroke =>
          convert_stroke_path resolve ustroke data
            (effectiveRect tb bb) rm.use_shape_antialiasing <;>
      simp_all [layerBBox]

/-- Closed instantiation of `c6_hidden_same_bbox_no_output` on the hidden
fill-only node. -/
theorem c6_witness :
    upathFillHidden.visibility ≠ Visibility.visible ∧
    ((convert resolveAlways upathFillHidden none []).2 = [] ∧
     (convert resolveAlways upathFillHidden none []).1
       = (convert resolveAlways
           { upathFillHidden with visibility := Visibility.visible } none []).1) :=
  ⟨by simp [upathFillHidden, upathFill, upathBare],
   c6_hidden_same_bbox_no_output resolveAlways upathFillHidden none []
     (by simp [upathFillHidden, upathFill, upathBare])⟩

/-
Claim C7.
-/

/-- C7: for a visible node that builds both ops, paint-order
`fill-then-stroke` emits the fill op then the stroke op, and
`stroke-then-fill` emits them in the reverse order with the very same two
ops (content unchanged); the returned bounding box is the same either
way. -/
theorem c7_paint_order_reverses_emission (resolve : PaintResolver)
    (upath : UPath) (tb : Option NonZeroRect) (children : List Node)
    (bb : Rect) (f : FillPath) (s : StrokePath)
    (hbb : upath.bounding_box = some bb)
    (hv : upath.visibility = Visibility.visible)
    (hf : builtFill resolve upath (effectiveRect tb bb) = some f)
    (hs : builtStroke resolve upath (effectiveRect tb bb) = some s) :
    (convert resolve { upath with paint_order := PaintOrder.fillAndStroke } tb children).2
        = children ++ [Node.fillPath f, Node.strokePath s] ∧
    (convert resolve { upath with paint_order := PaintOrder.strokeAndFill } tb children).2
        = children ++ [Node.strokePath s, Node.fillPath f] ∧
    (convert resolve { upath with paint_order := PaintOrder.fillAndStroke } tb children).1
        = (convert resolve { upath with paint_order := PaintOrder.strokeAndFill } tb children).1 := by
  obtain ⟨data, fill, stroke, rm, vis, po, bbox, sbbox⟩ := upath
  simp only at hbb hv
  subst hbb hv
  rw [convert_eq resolve _ tb children bb rfl, convert_eq resolve _ tb children bb rfl]
  simp only [builtResult, builtFill, builtStroke, emitted] at *
  simp [hf, hs, layerBBox]

/-- Closed instantiation of `c7_paint_order_reverses_emission` on the
node carrying both specs, with the concrete built ops `f0` and `s0`. -/
theorem c7_witness :
    upathBoth.bounding_box = some rectObj ∧
    upathBoth.visibility = Visibility.visible ∧
    builtFill resolveAlways upathBoth (effectiveRect none rectObj) = some f0 ∧
    builtStroke resolveAlways upathBoth (effectiveRect none rectObj) = some s0 ∧
    ((convert resolveAlways { upathBoth with paint_order := PaintOrder.fillAndStroke } none []).2
        = [] ++ [Node.fillPath f0, Node.strokePath s0] ∧
     (convert resolveAlways { upathBoth with paint_order := PaintOrder.strokeAndFill } none []).2
        = [] ++ [Node.strokePath s0, Node.fillPath f0] ∧
     (convert resolveAlways { upathBoth with paint_order := PaintOrder.fillAndStroke } none []).1
        = (convert resolveAlways { upathBoth with paint_order := PaintOrder.strokeAndFill } none []).1) :=
  ⟨rfl, rfl,
   by simp [builtFill, upathBoth, upathFill, upathBare, convert_fill_path, ufill0,
        ShapeRendering.use_shape_antialiasing,
        resolveAlways, effectiveRect, pathSquare, rectUnit, Rect.width, Rect.height, f0],
   by simp [builtStroke, upathBoth, upathFill, upathBare, convert_stroke_path,
        ShapeRendering.use_shape_antialiasing,
        resolveAlways, effectiveRect, UStroke.to_tiny_skia, ustroke0, s0, pathSquare],
   c7_paint_order_reverses_emission resolveAlways upathBoth none [] rectObj f0 s0 rfl rfl
     (by simp [builtFill, upathBoth, upathFill, upathBare, convert_fill_path, ufill0,
        ShapeRendering.use_shape_antialiasing,
        resolveAlways, effectiveRect, pathSquare, rectUnit, Rect.width, Rect.height, f0])
     (by simp [builtStroke, upathBoth, upathFill, upathBare, convert_stroke_path,
        ShapeRendering.use_shape_antialiasing,
        resolveAlways, effectiveRect, UStroke.to_tiny_skia, ustroke0, s0, pathSquare])⟩

/-
Claim C8.
-/

/-- C8: for a pattern-painted draw op, when pattern-tile preparation
fails the executor returns nothing drawn and hands the pixel buffer back
untouched — the rasterizer primitive is never invoked; this holds for
both the fill and the stroke executor. -/
theorem c8_pattern_prep_failure_draws_nothing (env : RenderEnv)
    (fp : FillPath) (sp : StrokePath) (blend_mode : BlendMode)
    (ctx : Context) (transform : Transform) (pixmap : Pixmap)
    (p q : Pattern)
    (hfp : fp.paint = Paint.pattern p)
    (hsp : sp.paint = Paint.pattern q)
    (hprep1 : env.prepare_pattern_pixmap p ctx transform = none)
    (hprep2 : env.prepare_pattern_pixmap q ctx transform = none) :
    render_fill_path env fp blend_mode ctx transform pixmap = (none, pixmap) ∧
    render_stroke_path env sp blend_mode ctx transform pixmap = (none, pixmap) := by
  constructor <;>
    simp [render_fill_path, render_stroke_path, hfp, hsp, hprep1, hprep2]

/-- Concrete environment whose pattern preparation always fails and whose
rasterizer primitives visibly change the pixel buffer. -/
def envFailing : RenderEnv :=
  { prepare_pattern_pixmap := fun _ _ _ => none
    fill_path_prim := fun pix _ _ _ _ _ => ⟨pix.id + 1⟩
    stroke_path_prim := fun pix _ _ _ _ _ => ⟨pix.id + 2⟩ }

def pattern0 : Pattern := ⟨5, 1⟩

/-- A pattern-painted fill op. -/
def fpPat : FillPath :=
  { paint := Paint.pattern pattern0, rule := TsFillRule.winding,
    anti_alias := true, path := pathSquare }

/-- A pattern-painted stroke op. -/
def spPat : StrokePath :=
  { paint := Paint.pattern pattern0, stroke := ⟨3⟩,
    anti_alias := true, path := pathSquare }

def pix0 : Pixmap := ⟨0⟩

def bm0 : BlendMode := ⟨0⟩

def ctx0 : Context := ⟨0⟩

def tf0 : Transform := ⟨0⟩

/-- Closed instantiation of `c8_pattern_prep_failure_draws_nothing`. -/
theorem c8_witness :
    fpPat.paint = Paint.pattern pattern0 ∧
    spPat.paint = Paint.pattern pattern0 ∧
    envFailing.prepare_pattern_pixmap pattern0 ctx0 tf0 = none ∧
    (render_fill_path envFailing fpPat bm0 ctx0 tf0 pix0 = (none, pix0) ∧
     render_stroke_path envFailing spPat bm0 ctx0 tf0 pix0 = (none, pix0)) :=
  ⟨rfl, rfl, rfl,
   c8_pattern_prep_failure_draws_nothing envFailing fpPat spPat bm0 ctx0 tf0 pix0
     pattern0 pattern0 rfl rfl rfl rfl⟩

/-
Claim C9.
-/

/-- C9: for a shader-painted draw op the executors have no failure
branch: both report success and unconditionally invoke the corresponding
rasterizer primitive on the pixel buffer, with the stored shader,
antialias flag and the caller-supplied blend mode, and no clip mask. -/
theorem c9_shader_always_draws (env : RenderEnv) (fp : FillPath)
    (sp : StrokePath) (blend_mode : BlendMode) (ctx : Context)
    (transform : Transform) (pixmap : Pixmap) (s1 s2 : Shader)
    (hfp : fp.paint = Paint.shader s1)
    (hsp : sp.paint = Paint.shader s2) :
    render_fill_path env fp blend_mode ctx transform pixmap
      = (some (), env.fill_path_prim pixmap fp.path
          { shader := TsShader.fromShader s1, anti_alias := fp.anti_alias,
            blend_mode := blend_mode } fp.rule transform none) ∧
    render_stroke_path env sp blend_mode ctx transform pixmap
      = (some (), env.stroke_path_prim pixmap sp.path
          { shader := TsShader.fromShader s2, anti_alias := sp.anti_alias,
            blend_mode := blend_mode } sp.stroke transform none) := by
  constructor <;> simp [render_fill_path, render_stroke_path, hfp, hsp]

/-- Closed instantiation of `c9_shader_always_draws` on shader-painted
ops (`f0`, `s0`) in the concrete environment. -/
theorem c9_witness :
    f0.paint = Paint.shader ⟨7⟩ ∧
    s0.paint = Paint.shader ⟨7⟩ ∧
    (render_fill_path envFailing f0 bm0 ctx0 tf0 pix0
        = (some (), envFailing.fill_path_prim pix0 f0.path
            { shader := TsShader.fromShader ⟨7⟩, anti_alias := f0.anti_alias,
              blend_mode := bm0 } f0.rule tf0 none) ∧
     render_stroke_path envFailing s0 bm0 ctx0 tf0 pix0
        = (some (), envFailing.stroke_path_prim pix0 s0.path
            { shader := TsShader.fromShader ⟨7⟩, anti_alias := s0.anti_alias,
              blend_mode := bm0 } s0.stroke tf0 none)) :=
  ⟨rfl, rfl,
   c9_shader_always_draws envFailing f0 s0 bm0 ctx0 tf0 pix0 ⟨7⟩ ⟨7⟩ rfl rfl⟩

/-
Claim C10.
-/

/-- C10: when a stroke op was built but the node has no precomputed
stroke bounding box, `convert` still succeeds and silently returns the
unexpanded object bounding box as the layer bounding box. -/
theorem c10_missing_stroke_bbox_unexpanded (resolve : PaintResolver)
    (upath : UPath) (children : List Node) (bb : Rect) (s : StrokePath)
    (hbb : upath.bounding_box = some bb)
    (hsb : upath.stroke_bounding_box = none)
    (hs : builtStroke resolve upath bb = some s) :
    (convert resolve upath none children).1 = some (BBox.ofRect bb) := by
  rw [convert_eq resolve upath none children bb hbb]
  have hebb : effectiveRect none bb = bb := rfl
  rw [show effectiveRect (none : Option NonZeroRect) bb = bb from rfl] at *
  cases hf : builtFill resolve upath bb <;>
    by_cases hv : upath.visibility = Visibility.visible <;>
    simp_all [builtResult, layerBBox, hsb]

/-- Closed instantiation of `c10_missing_stroke_bbox_unexpanded` on the
stroke-only node without a stroke bounding box. -/
theorem c10_witness :
    upathStroke.bounding_box = some rectObj ∧
    upathStroke.stroke_bounding_box = none ∧
    builtStroke resolveAlways upathStroke rectObj = some s0 ∧
    (convert resolveAlways upathStroke none []).1 = some (BBox.ofRect rectObj) :=
  ⟨rfl, rfl,
   by simp [builtStroke, upathStroke, upathBare, convert_stroke_path,
      ShapeRendering.use_shape_antialiasing,
      resolveAlways, UStroke.to_tiny_skia, ustroke0, s0, pathSquare],
   c10_missing_stroke_bbox_unexpanded resolveAlways upathStroke [] rectObj s0 rfl rfl
     (by simp [builtStroke, upathStroke, upathBare, convert_stroke_path,
        ShapeRendering.use_shape_antialiasing,
        resolveAlways, UStroke.to_tiny_skia, ustroke0, s0, pathSquare])⟩

end Resvg
